import Mathlib

/-!
Verification of the obd2remote telemetry pipeline.

This file gives a shallow embedding of the two subsystems the specification
covers: the resilient PID acquisition layer (`src/obdlink/obdlink.py`:
`OBDReader`, `_resolve_cmd`, `collect_datapoint`, the publish decision in
`main`) and the streaming ingestion layer
(`src/viewer/app/ingestor.py`: `MQTTInfluxIngestor._on_message`).

Modelling conventions:
- Python floats/`time.time()` values are modelled as rationals (`ℚ`),
  machine timestamps as integers (`ℤ`).
- The external adapter (python-OBD) is modelled by an environment: each
  query call consumes a `QueryEnv` describing whether `is_connected()`
  returned true and what the query produced (an I/O error, a null
  response, or a unit-tagged value).
- A unit-tagged value (a pint `Quantity`) is modelled by a `RawValue`
  recording, for each unit conversion the source attempts, whether the
  conversion succeeds (`some` magnitude) or raises (`none`).
- Exception handlers in the source become explicit control flow; every
  embedded operation is a total function, which reflects the source
  property that the handled errors are never propagated to the caller.
-/

set_option allowUnsafeReducibility true
attribute [local semireducible] Rat.sub Rat.add Rat.mul Rat.inv Rat.normalize Rat.maybeNormalize

/-- Python `round` (banker's rounding: round half to even) on a rational,
as used by `int(round(x))` in `OBDReader.query_int`. -/
def pyRound (q : ℚ) : ℤ :=
  let f : ℤ := q.floor
  let frac : ℚ := q - f
  if frac < 1/2 then f
  else if 1/2 < frac then f + 1
  else if f % 2 = 0 then f else f + 1

/-- Connection state of `OBDReader` (`src/obdlink/obdlink.py:109-143`).
`conn = none` models `self.conn is None`; `some ()` models a live
connection object. `last_try` and `retry_delay` are the float fields of
the same names. -/
structure ReaderState where
  conn : Option Unit
  last_try : ℚ
  retry_delay : ℚ
deriving DecidableEq

/-- The state produced by `OBDReader.__init__`: no connection, `last_try = 0.0`,
`retry_delay = 3.0`. -/
def OBDReader_init : ReaderState := ⟨none, 0, 3⟩

/-- Result of the liveness probe `self.conn.is_connected()` as called inside
`ensure_connected` (where a raise is caught and rebuilds the connection). -/
inductive ProbeRes where
  | ok (b : Bool)
  | exn
deriving DecidableEq

/-- A unit-tagged measurement (a pint `Quantity`) as seen by
`OBDReader.query_int`. Each field gives the magnitude produced by the
corresponding conversion the source attempts, or `none` when that
conversion raises: `toDegC` for `v.to("degC")`, `toKph` for `v.to("kph")`,
`toLh` for `v.to("L/h")`, `toV` for `v.to("V")`, `hasMag` for the
`magnitude` attribute when present, `floatVal` for `float(v)`. Note that
`getattr(v, "magnitude", default)` in the source evaluates `default`
eagerly, so a raising default raises even when `magnitude` exists; the
embedding reproduces that. -/
structure RawValue where
  toDegC : Option ℚ
  toKph : Option ℚ
  toLh : Option ℚ
  toV : Option ℚ
  hasMag : Option ℚ
  floatVal : Option ℚ
deriving DecidableEq

/-- What a single `self.conn.query(cmd)` call does: raise an I/O-level
error, return a null response (`r.is_null()`), or return a value. -/
inductive QueryOutcome where
  | err
  | nullR
  | val (v : RawValue)
deriving DecidableEq

/-- Environment consumed by one `query_int` call: the result of the
`is_connected()` check at its top and the outcome of the query itself. -/
structure QueryEnv where
  connected : Bool
  outcome : QueryOutcome
deriving DecidableEq

/-- Result of one embedded `query_int` call: the returned value (`none` is
Python `None`, i.e. an absent reading), the successor reader state, and
whether `self.conn.close()` was invoked. -/
structure QueryResult where
  val : Option ℤ
  st : ReaderState
  closedLink : Bool
deriving DecidableEq

/-- The unit-conversion block of `OBDReader.query_int`
(`src/obdlink/obdlink.py:153-182`): dedicated conversions for `SPEED`,
`THROTTLE_POS` and `COOLANT_TEMP`, and for every other command the
fallback chain degC, kph, L/h, millivolts-from-volts, then
`getattr(v, "magnitude", float(v))`. Returns `none` when the Python code
would raise out of this block (caught by the enclosing handler). -/
def convert (cmd : String) (v : RawValue) : Option ℤ :=
  if cmd = "SPEED" then
    match v.toKph with
    | none => none
    | some d => some (pyRound (v.hasMag.getD d))
  else if cmd = "THROTTLE_POS" then
    match v.floatVal with
    | none => none
    | some d => some (pyRound (v.hasMag.getD d))
  else if cmd = "COOLANT_TEMP" then
    match v.toDegC with
    | none => none
    | some d => some (pyRound (v.hasMag.getD d))
  else
    match v.toDegC with
    | some x => some (pyRound x)
    | none =>
      match v.toKph with
      | some x => some (pyRound x)
      | none =>
        match v.toLh with
        | some x => some (pyRound x)
        | none =>
          match v.toV with
          | some x => some (pyRound (x * 1000))
          | none =>
            match v.floatVal with
            | some d => some (pyRound (v.hasMag.getD d))
            | none => none

/-- `OBDReader.query_int` (`src/obdlink/obdlink.py:145-192`): returns
`None` when disconnected; on any error raised inside the `try` block
(query error or conversion failure) it closes the link, sets
`self.conn = None` and returns `None`; a null response returns `None`
with the state unchanged; otherwise it returns the converted integer. -/
def query_int (st : ReaderState) (env : QueryEnv) (cmd : String) : QueryResult :=
  match st.conn with
  | none => ⟨none, st, false⟩
  | some _ =>
    if !env.connected then ⟨none, st, false⟩
    else
      match env.outcome with
      | .err => ⟨none, { st with conn := none }, true⟩
      | .nullR => ⟨none, st, false⟩
      | .val v =>
        match convert cmd v with
        | some n => ⟨some n, st, false⟩
        | none => ⟨none, { st with conn := none }, true⟩

/-- Environment consumed by one `ensure_connected` call: the liveness probe
result (used only when a connection object exists) and whether the
`obd.OBD(...)` constructor in `_connect` raises. -/
structure EnsureEnv where
  probe : ProbeRes
  connectRaises : Bool
deriving DecidableEq

/-- Result of `ensure_connected`: the successor state and whether a fresh
connect (`self._connect()`) was attempted. -/
structure EnsureOut where
  st : ReaderState
  attempted : Bool
deriving DecidableEq

/-- `OBDReader._connect` (`src/obdlink/obdlink.py:117-128`): on success the
connection object is installed; on a raise, `self.conn = None`. -/
def reader_connect (st : ReaderState) (raises : Bool) : ReaderState :=
  if raises then { st with conn := none } else { st with conn := some () }

/-- The tail of `ensure_connected` (`src/obdlink/obdlink.py:140-143`): a
no-op while `now - last_try < retry_delay`, otherwise record the attempt
time and run `_connect`. -/
def ensure_retry (st : ReaderState) (now : ℚ) (env : EnsureEnv) : EnsureOut :=
  if now - st.last_try < st.retry_delay then ⟨st, false⟩
  else ⟨reader_connect { st with last_try := now } env.connectRaises, true⟩

/-- `OBDReader.ensure_connected` (`src/obdlink/obdlink.py:130-143`): returns
immediately when the probe reports a live connection; a raising probe
discards the connection object; in all remaining cases the retry-delay
guard decides whether `_connect` runs. -/
def ensure_connected (st : ReaderState) (now : ℚ) (env : EnsureEnv) : EnsureOut :=
  match st.conn with
  | some _ =>
    match env.probe with
    | .ok true => ⟨st, false⟩
    | .ok false => ensure_retry st now env
    | .exn => ensure_retry { st with conn := none } now env
  | none => ensure_retry st now env

/-- Output of the embedded `query_int_retry`: the value returned, the final
reader state, and how many underlying `query_int` calls were made. -/
structure RetryOut where
  val : Option ℤ
  st : ReaderState
  calls : ℕ
deriving DecidableEq

/-- The loop body of `OBDReader.query_int_retry`
(`src/obdlink/obdlink.py:194-202`), with the iteration count as explicit
fuel: each iteration issues `query_int` and returns its value if
non-absent; when the fuel runs out the result is absent. Successive calls
consume successive entries of `envs` starting at `idx`. -/
def retryLoop (envs : ℕ → QueryEnv) (cmd : String) : ℕ → ReaderState → ℕ → RetryOut
  | 0, st, _ => ⟨none, st, 0⟩
  | 1, st, idx =>
    let r := query_int st (envs idx) cmd
    match r.val with
    | some v => ⟨some v, r.st, 1⟩
    | none => ⟨none, r.st, 1⟩
  | n + 2, st, idx =>
    let r := query_int st (envs idx) cmd
    match r.val with
    | some v => ⟨some v, r.st, 1⟩
    | none =>
      let o := retryLoop envs cmd (n + 1) r.st (idx + 1)
      ⟨o.val, o.st, o.calls + 1⟩

/-- `OBDReader.query_int_retry` (`src/obdlink/obdlink.py:194-202`): the loop
runs `for i in range(max(1, retries + 1))`, so the fuel is
`max 1 (retries + 1)` (negative retries included); the inter-attempt
`time.sleep(delay)` has no other observable effect and is not modelled. -/
def query_int_retry (st : ReaderState) (envs : ℕ → QueryEnv) (idx : ℕ) (cmd : String)
    (retries : ℤ) : RetryOut :=
  retryLoop envs cmd (max 1 (retries + 1)).toNat st idx

/-- The values the attempts of a retry loop would see if it never stopped
early: iterate `query_int` `n` times, threading the state. -/
def runAttempts (st : ReaderState) (envs : ℕ → QueryEnv) (idx : ℕ) (cmd : String) :
    ℕ → List (Option ℤ)
  | 0 => []
  | n + 1 =>
    let r := query_int st (envs idx) cmd
    r.val :: runAttempts r.st envs (idx + 1) cmd n

/-- First non-absent entry of a list of optional values. -/
def firstSome : List (Option ℤ) → Option ℤ
  | [] => none
  | some v :: _ => some v
  | none :: rest => firstSome rest

/-- The `PID_CANDIDATES` table (`src/obdlink/obdlink.py:43-51`) as a total
function; `PID_CANDIDATES.get(name, [])` for an unknown name is the empty
list. -/
def PID_CANDIDATES (name : String) : List String :=
  if name = "SPEED" then ["SPEED"]
  else if name = "THROTTLE" then ["THROTTLE_POS"]
  else if name = "COOLANT_TEMP" then ["COOLANT_TEMP", "ENGINE_COOLANT_TEMP"]
  else if name = "INTAKE_TEMP" then
    ["INTAKE_TEMP", "INTAKE_AIR_TEMP", "AIR_TEMP", "AMBIENT_AIR_TEMP", "AMBIANT_AIR_TEMP"]
  else if name = "STFT" then ["STFT_BANK_1", "SHORT_FUEL_TRIM_1", "SHORT_FUEL_TRIM_BANK_1"]
  else if name = "LTFT" then ["LTFT_BANK_1", "LONG_FUEL_TRIM_1", "LONG_FUEL_TRIM_BANK_1"]
  else if name = "ADAPTER_VOLT" then ["ELM_VOLTAGE", "ELM_VOLT"]
  else []

/-- The `for`/`hasattr` loop of `_resolve_cmd`: return the first candidate
present in the runtime command catalog (the set of attribute names on
`obd.commands`, modelled as a list of names). -/
def resolveLoop (catalog : List String) : List String → Option String
  | [] => none
  | n :: rest => if catalog.contains n then some n else resolveLoop catalog rest

/-- `_resolve_cmd` (`src/obdlink/obdlink.py:53-58`): a pure lookup of the
first known alias of a logical PID name. -/
def resolve_cmd (catalog : List String) (name : String) : Option String :=
  resolveLoop catalog (PID_CANDIDATES name)

/-- How a query was issued by the acquisition cycle: via plain `query_int`
or via `query_int_retry`. -/
inductive QueryMethod where
  | plain
  | retry
deriving DecidableEq

/-- Accumulator threaded through the queries of one `collect_datapoint`
cycle: the reader state, the index of the next entry of the environment
stream to consume, and the trace of issued queries. -/
structure QAcc where
  st : ReaderState
  idx : ℕ
  trace : List (QueryMethod × String)
deriving DecidableEq

/-- One `reader.query_int(cmd)` call inside `collect_datapoint`, recorded
in the trace as a plain query. -/
def doQuery (a : QAcc) (envs : ℕ → QueryEnv) (cmd : String) : Option ℤ × QAcc :=
  let r := query_int a.st (envs a.idx) cmd
  (r.val, ⟨r.st, a.idx + 1, a.trace ++ [(QueryMethod.plain, cmd)]⟩)

/-- The pattern `reader.query_int(c) if c else None` used for the resolved
optional PIDs in `collect_datapoint`. -/
def doQueryOpt (a : QAcc) (envs : ℕ → QueryEnv) : Option String → Option ℤ × QAcc
  | some c => doQuery a envs c
  | none => (none, a)

/-- A value stored in a telemetry record: the integer fields, or the
one-decimal adapter voltage. -/
inductive FieldVal where
  | fint (n : ℤ)
  | fdec (q : ℚ)
deriving DecidableEq

/-- Conditional insertion `if x is not None: data[k] = f(x)` of
`collect_datapoint`, as a zero- or one-element list segment. -/
def optField (k : String) (o : Option FieldVal) : List (String × FieldVal) :=
  match o with
  | some v => [(k, v)]
  | none => []

/-- The record-assembly block of `collect_datapoint`
(`src/obdlink/obdlink.py:212-246`) from the seven (optional) query values:
insertion-ordered key/value pairs with the source's clamps — throttle to
[0, 100], fuel trims to [-100, 100] — and the adapter voltage
`max(0.0, round(mv / 1000.0, 1))`. -/
def assembleFields (speed throttle ect air stftv ltftv advmv : Option ℤ) :
    List (String × FieldVal) :=
  optField "speed_kmh" (speed.map FieldVal.fint)
    ++ optField "throttle_percent" (throttle.map fun t => FieldVal.fint (max 0 (min 100 t)))
    ++ optField "engine_temp_c" (ect.map FieldVal.fint)
    ++ optField "air_temp_c" (air.map FieldVal.fint)
    ++ optField "short_term_fuel_trim_percent"
        (stftv.map fun x => FieldVal.fint (max (-100) (min 100 x)))
    ++ optField "long_term_fuel_trim_percent"
        (ltftv.map fun x => FieldVal.fint (max (-100) (min 100 x)))
    ++ optField "adapter_voltage_v"
        (advmv.map fun mv => FieldVal.fdec (max 0 ((pyRound ((mv : ℚ) / 100) : ℚ) / 10)))

/-- The full record: `{"timestamp": ts}` followed by the conditional
sensor fields, in the source's insertion order. -/
def assemble (ts : ℤ) (speed throttle ect air stftv ltftv advmv : Option ℤ) :
    List (String × FieldVal) :=
  ("timestamp", FieldVal.fint ts) :: assembleFields speed throttle ect air stftv ltftv advmv

/-- The seven raw optional integer readings of one acquisition cycle, in
source order. -/
structure RawVals where
  speed : Option ℤ
  throttle : Option ℤ
  ect : Option ℤ
  air : Option ℤ
  stftv : Option ℤ
  ltftv : Option ℤ
  advmv : Option ℤ
deriving DecidableEq

/-- The query sequence of `collect_datapoint`
(`src/obdlink/obdlink.py:216-227`): the three primary PIDs through
`query_int`, then the four resolved optional PIDs, threading the reader
state through every call. -/
def collectRaw (catalog : List String) (st₀ : ReaderState) (envs : ℕ → QueryEnv) :
    RawVals × QAcc :=
  let (speed, a1) := doQuery ⟨st₀, 0, []⟩ envs "SPEED"
  let (throttle, a2) := doQuery a1 envs "THROTTLE_POS"
  let (ect, a3) := doQuery a2 envs "COOLANT_TEMP"
  let (air, a4) := doQueryOpt a3 envs (resolve_cmd catalog "INTAKE_TEMP")
  let (stftv, a5) := doQueryOpt a4 envs (resolve_cmd catalog "STFT")
  let (ltftv, a6) := doQueryOpt a5 envs (resolve_cmd catalog "LTFT")
  let (advmv, a7) := doQueryOpt a6 envs (resolve_cmd catalog "ADAPTER_VOLT")
  (⟨speed, throttle, ect, air, stftv, ltftv, advmv⟩, a7)

/-- Output of one `collect_datapoint` cycle: the assembled record, the
final reader state, the trace of issued queries, and the raw readings. -/
structure CollectOut where
  record : List (String × FieldVal)
  finSt : ReaderState
  trace : List (QueryMethod × String)
  vals : RawVals
deriving DecidableEq

/-- `collect_datapoint` (`src/obdlink/obdlink.py:211-246`): query the PIDs
and assemble the telemetry record starting from `{"timestamp": ts}`. -/
def collect_datapoint (catalog : List String) (st₀ : ReaderState) (envs : ℕ → QueryEnv)
    (ts : ℤ) : CollectOut :=
  let p := collectRaw catalog st₀ envs
  { record := assemble ts p.1.speed p.1.throttle p.1.ect p.1.air p.1.stftv p.1.ltftv p.1.advmv
    finSt := p.2.st
    trace := p.2.trace
    vals := p.1 }

/-- The publish decision of `main` (`src/obdlink/obdlink.py:268`):
`len(data) > 1`, i.e. at least one measurement besides the timestamp. -/
def shouldPublish (rec : List (String × FieldVal)) : Bool :=
  decide (1 < rec.length)

/-- A Python value as decoded from a JSON payload field: integers,
non-integer numbers, strings, booleans, `None`, lists and dicts (the
content of the latter two is irrelevant to `int()` coercion, which always
fails on them). -/
inductive PyVal where
  | vint (n : ℤ)
  | vnum (q : ℚ)
  | vstr (s : String)
  | vbool (b : Bool)
  | vnull
  | varr
  | vobj
deriving DecidableEq

/-- Python `int(float)`: truncation toward zero. -/
def pyTrunc (q : ℚ) : ℤ :=
  if 0 ≤ q then q.floor else q.ceil

/-- A nonempty all-digit character list read as a natural number. -/
def parseDigits (cs : List Char) : Option ℕ :=
  if cs = [] then none
  else if cs.all Char.isDigit then
    some (cs.foldl (fun a c => a * 10 + (c.toNat - 48)) 0)
  else none

/-- Python `int(str)` restricted to the shapes that occur here: optional
surrounding spaces, an optional sign, then decimal digits; anything else
raises (`none`). -/
def pyStrToInt (s : String) : Option ℤ :=
  let cs := ((s.toList.dropWhile (· = ' ')).reverse.dropWhile (· = ' ')).reverse
  match cs with
  | '-' :: rest => (parseDigits rest).map (fun n => -(n : ℤ))
  | '+' :: rest => (parseDigits rest).map (fun n => (n : ℤ))
  | _ => (parseDigits cs).map (fun n => (n : ℤ))

/-- Python `int(v)` on a decoded JSON value: succeeds on numbers, booleans
and integer-shaped strings; raises (`none`) on `None`, lists, dicts and
non-numeric strings. -/
def pyIntCoerce : PyVal → Option ℤ
  | .vint n => some n
  | .vnum q => some (pyTrunc q)
  | .vstr s => pyStrToInt s
  | .vbool b => some (if b then 1 else 0)
  | .vnull => none
  | .varr => none
  | .vobj => none

/-- One stored time-series point, as built by
`Point("obd").tag("key", k).field("v", iv).time(ts_ns)`
(`src/viewer/app/ingestor.py:59`). -/
structure Point where
  measurement : String
  tagKey : String
  fieldV : ℤ
  time : ℤ
deriving DecidableEq

/-- An inbound MQTT payload after the decode/parse step of `_on_message`:
either it failed to parse as a JSON object (non-JSON text, the empty
payload, or a JSON value on which `.get`/`.items` raises), or it is a
key/value record. Keys of a decoded JSON object are unique; the list is in
insertion order. -/
inductive Payload where
  | malformed
  | record (kvs : List (String × PyVal))

/-- Observable outcome of one `_on_message` call: the points built and
whether `write_api.write` was invoked (`if points:` guard). -/
structure IngestOut where
  points : List Point
  wrote : Bool
deriving DecidableEq

/-- `MQTTInfluxIngestor._on_message` (`src/viewer/app/ingestor.py:42-66`):
on a malformed payload the outer handler swallows the parse error and
nothing is emitted. Otherwise `ts_sec = int(data.get("timestamp", now))`
— when the `int` coercion of a present `timestamp` value raises, the same
outer handler drops the whole message. With `ts_sec` in hand, each
non-timestamp field that coerces to an integer becomes one point with
time `ts_sec * 1_000_000_000`; fields that fail coercion are skipped by
the inner handler. The function is total: no error escapes it. -/
def onMessage (now : ℤ) (p : Payload) : IngestOut :=
  match p with
  | .malformed => ⟨[], false⟩
  | .record kvs =>
    let tsv := (kvs.lookup "timestamp").getD (PyVal.vint now)
    match pyIntCoerce tsv with
    | none => ⟨[], false⟩
    | some ts_sec =>
      let ts_ns := ts_sec * 1000000000
      let points := kvs.filterMap (fun kv =>
        if kv.1 = "timestamp" then none
        else (pyIntCoerce kv.2).map (fun iv => Point.mk "obd" kv.1 iv ts_ns))
      ⟨points, !points.isEmpty⟩

/-- The storage-write shape stated by the spec: one point per non-timestamp
field whose value coerces to an integer — measurement `"obd"`, tag `key`
equal to the field name, field `v` the coerced integer, time the given
timestamp (seconds) scaled to nanoseconds; fields failing coercion are
skipped. -/
def specPoints (kvs : List (String × PyVal)) (ts : ℤ) : List Point :=
  kvs.filterMap (fun kv =>
    if kv.1 = "timestamp" then none
    else
      match pyIntCoerce kv.2 with
      | some iv => some ⟨"obd", kv.1, iv, ts * 1000000000⟩
      | none => none)

/-- The amended timestamp rule actually implemented by `_on_message`: a
present, integer-coercible `timestamp` is used; an absent `timestamp`
defaults to the current time; a present but non-coercible `timestamp`
drops the whole message. -/
def specIngestPoints (now : ℤ) (kvs : List (String × PyVal)) : List Point :=
  match kvs.lookup "timestamp" with
  | none => specPoints kvs now
  | some tv =>
    match pyIntCoerce tv with
    | some t => specPoints kvs t
    | none => []

/-- The fallback unit-conversion chain as the spec states it for PIDs with
no dedicated conversion: degrees Celsius, then km/h, then liters/hour,
then millivolts computed from volts, then the raw numeric magnitude; the
result is the rounded integer of the first step that converts without
raising. -/
def specFallbackChain (v : RawValue) : Option ℤ :=
  match v.toDegC with
  | some x => some (pyRound x)
  | none =>
    match v.toKph with
    | some x => some (pyRound x)
    | none =>
      match v.toLh with
      | some x => some (pyRound x)
      | none =>
        match v.toV with
        | some x => some (pyRound (x * 1000))
        | none =>
          match v.floatVal with
          | some d => some (pyRound (v.hasMag.getD d))
          | none => none

lemma resolveLoop_eq_find (catalog : List String) (l : List String) :
    resolveLoop catalog l = l.find? (fun n => catalog.contains n) := by
  induction l with
  | nil => rfl
  | cons a t ih =>
    by_cases h : catalog.contains a = true
    · rw [resolveLoop, if_pos h, List.find?_cons_of_pos _ h]
    · rw [resolveLoop, if_neg h, List.find?_cons_of_neg _ (by simpa using h), ih]

/-- C7: for every logical PID name, `_resolve_cmd` returns the first alias
of its candidate list, in priority order, that is present in the runtime
command catalog, and `None` exactly when no alias is present. The lookup
is a pure function of the catalog and the name. -/
theorem resolve_cmd_first_alias (catalog : List String) (name : String) :
    resolve_cmd catalog name = (PID_CANDIDATES name).find? (fun n => catalog.contains n) ∧
    (resolve_cmd catalog name = none ↔ ∀ n ∈ PID_CANDIDATES name, n ∉ catalog) := by
  refine ⟨resolveLoop_eq_find catalog (PID_CANDIDATES name), ?_⟩
  rw [resolve_cmd, resolveLoop_eq_find, List.find?_eq_none]
  simp

/-- C9: a payload that does not parse as a structured record (non-JSON
text or the empty payload) produces no points and no storage write; the
embedded `_on_message` is a total function, reflecting that the outer
handler swallows the parse error. -/
theorem onMessage_malformed_silent (now : ℤ) :
    onMessage now Payload.malformed = ⟨[], false⟩ := rfl

lemma retryLoop_spec (envs : ℕ → QueryEnv) (cmd : String) :
    ∀ n, 1 ≤ n → ∀ st idx,
      1 ≤ (retryLoop envs cmd n st idx).calls ∧
      (retryLoop envs cmd n st idx).calls ≤ n ∧
      (retryLoop envs cmd n st idx).val = firstSome (runAttempts st envs idx cmd n) ∧
      ((retryLoop envs cmd n st idx).val = none → (retryLoop envs cmd n st idx).calls = n) := by
  intro n
  induction n with
  | zero => omega
  | succ m ih =>
    intro _ st idx
    rcases m with _ | k
    · rcases hr : (query_int st (envs idx) cmd).val with _ | v <;>
        simp [retryLoop, runAttempts, hr, firstSome]
    · rcases hr : (query_int st (envs idx) cmd).val with _ | v
      · have hk := ih (by omega) (query_int st (envs idx) cmd).st (idx + 1)
        simp only [retryLoop, hr, runAttempts, firstSome]
        refine ⟨by omega, by omega, hk.2.2.1, fun hv => ?_⟩
        have := hk.2.2.2 hv
        omega
      · simp [retryLoop, runAttempts, hr, firstSome]

/-- C10: for every integer `retries`, zero and negatives included,
`query_int_retry` issues at least one `query_int` call and at most
`max 1 (retries + 1)`; its result is the first non-absent value the
attempt sequence produces, absent when every attempt is absent, in which
case all `max 1 (retries + 1)` attempts were made. -/
theorem query_int_retry_spec (st : ReaderState) (envs : ℕ → QueryEnv) (idx : ℕ)
    (cmd : String) (retries : ℤ) :
    1 ≤ (query_int_retry st envs idx cmd retries).calls ∧
    (query_int_retry st envs idx cmd retries).calls ≤ (max 1 (retries + 1)).toNat ∧
    (query_int_retry st envs idx cmd retries).val =
      firstSome (runAttempts st envs idx cmd (max 1 (retries + 1)).toNat) ∧
    ((query_int_retry st envs idx cmd retries).val = none →
      (query_int_retry st envs idx cmd retries).calls = (max 1 (retries + 1)).toNat) := by
  have h1 : 1 ≤ (max 1 (retries + 1)).toNat := by
    have := le_max_left 1 (retries + 1)
    omega
  simpa [query_int_retry] using retryLoop_spec envs cmd _ h1 st idx

lemma convert_generic (cmd : String) (v : RawValue) (h1 : cmd ≠ "SPEED")
    (h2 : cmd ≠ "THROTTLE_POS") (h3 : cmd ≠ "COOLANT_TEMP") :
    convert cmd v = specFallbackChain v := by
  simp [convert, specFallbackChain, h1, h2, h3]

/-- C6: for a connected reader and a command with no dedicated conversion,
`query_int` returns exactly what the priority chain — degrees Celsius,
then km/h, then liters/hour, then millivolts from volts, then the raw
numeric magnitude — yields at the first step that converts without
raising (absent when every step raises). -/
theorem query_int_fallback_chain (st : ReaderState) (env : QueryEnv) (cmd : String)
    (v : RawValue) (h1 : cmd ≠ "SPEED") (h2 : cmd ≠ "THROTTLE_POS")
    (h3 : cmd ≠ "COOLANT_TEMP") (hc : st.conn = some ()) (he : env.connected = true)
    (ho : env.outcome = QueryOutcome.val v) :
    (query_int st env cmd).val = specFallbackChain v := by
  rw [query_int, hc]
  simp only [he, ho, Bool.not_true]
  rw [convert_generic cmd v h1 h2 h3]
  cases hcv : specFallbackChain v <;> simp [hcv]

/-- Witness for C6 at a concrete input: a value whose degC conversion
raises but whose km/h conversion yields 33. -/
theorem query_int_fallback_chain_witness :
    (query_int ⟨some (), 0, 3⟩
        ⟨true, QueryOutcome.val ⟨none, some 33, none, none, none, none⟩⟩
        "INTAKE_TEMP").val =
      specFallbackChain ⟨none, some 33, none, none, none, none⟩ :=
  query_int_fallback_chain _ _ _ _ (by decide) (by decide) (by decide) rfl rfl rfl

/-- C4: when the underlying query raises, `query_int` closes the link,
sets the connection to `None` (Disconnected) and returns absent — the
embedded function is total, reflecting that the error is not propagated;
the retry-delay fields are untouched, and a subsequent `ensure_connected`
at time `now` attempts a fresh connect exactly when the retry-delay
window since the last connect attempt has elapsed. The constructed
reader's `retry_delay` default is 3 seconds. -/
theorem query_error_disconnects (st : ReaderState) (env : QueryEnv) (cmd : String)
    (hc : st.conn = some ()) (he : env.connected = true)
    (ho : env.outcome = QueryOutcome.err) :
    (query_int st env cmd).val = none ∧
    (query_int st env cmd).st.conn = none ∧
    (query_int st env cmd).closedLink = true ∧
    (query_int st env cmd).st.last_try = st.last_try ∧
    (query_int st env cmd).st.retry_delay = st.retry_delay ∧
    OBDReader_init.retry_delay = 3 ∧
    ∀ (now : ℚ) (env2 : EnsureEnv),
      (ensure_connected (query_int st env cmd).st now env2).attempted = true ↔
        st.retry_delay ≤ now - st.last_try := by
  have hq : query_int st env cmd = ⟨none, { st with conn := none }, true⟩ := by
    rw [query_int, hc]
    simp [he, ho]
  rw [hq]
  refine ⟨rfl, rfl, rfl, rfl, rfl, rfl, fun now env2 => ?_⟩
  have hred : ensure_connected { st with conn := none } now env2 =
      ensure_retry { st with conn := none } now env2 := rfl
  rw [hred, ensure_retry]
  split_ifs with h
  · constructor
    · intro hF
      simp at hF
    · intro hP
      exact absurd h (not_lt.mpr hP)
  · constructor
    · intro _
      exact not_lt.mp h
    · intro _
      rfl

/-- Witness for C4 at a concrete state: after an erroring query with
`last_try = 5` and `retry_delay = 3`, the query returns absent with the
connection dropped, and `ensure_connected` attempts a fresh connect at
time 9 (window elapsed) but not at time 7 (window not yet elapsed). -/
theorem query_error_disconnects_witness :
    (query_int ⟨some (), 5, 3⟩ ⟨true, QueryOutcome.err⟩ "SPEED").val = none ∧
    (query_int ⟨some (), 5, 3⟩ ⟨true, QueryOutcome.err⟩ "SPEED").st.conn = none ∧
    (ensure_connected (query_int ⟨some (), 5, 3⟩ ⟨true, QueryOutcome.err⟩ "SPEED").st 9
      ⟨ProbeRes.ok true, false⟩).attempted = true ∧
    (ensure_connected (query_int ⟨some (), 5, 3⟩ ⟨true, QueryOutcome.err⟩ "SPEED").st 7
      ⟨ProbeRes.ok true, false⟩).attempted = false := by
  have h := query_error_disconnects ⟨some (), 5, 3⟩ ⟨true, QueryOutcome.err⟩ "SPEED" rfl rfl rfl
  refine ⟨h.1, h.2.1, (h.2.2.2.2.2.2 9 ⟨ProbeRes.ok true, false⟩).mpr (by decide), ?_⟩
  have h7 := h.2.2.2.2.2.2 7 ⟨ProbeRes.ok true, false⟩
  cases hb : (ensure_connected (query_int ⟨some (), 5, 3⟩ ⟨true, QueryOutcome.err⟩ "SPEED").st 7
      ⟨ProbeRes.ok true, false⟩).attempted
  · rfl
  · exact absurd (h7.mp hb) (by decide)

lemma mem_optField_fst {kv : String × FieldVal} {k : String} {o : Option FieldVal}
    (h : kv ∈ optField k o) : kv.1 = k := by
  cases o with
  | none => simp [optField] at h
  | some v =>
    simp [optField] at h
    simp [h]

lemma mem_assembleFields_ne_timestamp {kv : String × FieldVal}
    {s t e a f l ad : Option ℤ} (h : kv ∈ assembleFields s t e a f l ad) :
    kv.1 ≠ "timestamp" := by
  simp only [assembleFields, List.mem_append] at h
  rcases h with ((((((h | h) | h) | h) | h) | h) | h) <;>
    simp [mem_optField_fst h]

lemma assemble_timestamp_publish (ts : ℤ) (s t e a f l ad : Option ℤ) :
    ("timestamp", FieldVal.fint ts) ∈ assemble ts s t e a f l ad ∧
    (shouldPublish (assemble ts s t e a f l ad) = true ↔
      ∃ kv ∈ assemble ts s t e a f l ad, kv.1 ≠ "timestamp") := by
  simp only [shouldPublish, decide_eq_true_eq, assemble]
  refine ⟨List.mem_cons_self _ _, ?_, ?_⟩
  · intro hlen
    have hne : assembleFields s t e a f l ad ≠ [] := by
      intro hnil
      rw [hnil] at hlen
      simp at hlen
    rcases List.exists_mem_of_ne_nil _ hne with ⟨kv, hkv⟩
    exact ⟨kv, List.mem_cons_of_mem _ hkv, mem_assembleFields_ne_timestamp hkv⟩
  · rintro ⟨kv, hkv, hne⟩
    rcases List.mem_cons.mp hkv with rfl | hkv2
    · exact absurd rfl hne
    · have hpos := List.length_pos.mpr (List.ne_nil_of_mem hkv2)
      simp only [List.length_cons]
      omega

/-- C3: every record assembled by an acquisition cycle contains the
`timestamp` key, and the publish decision of `main` (`len(data) > 1`)
holds exactly when the record carries at least one field besides the
timestamp — a record with only `{timestamp: ts}` is never published. -/
theorem collect_record_publish (catalog : List String) (st₀ : ReaderState)
    (envs : ℕ → QueryEnv) (ts : ℤ) :
    ("timestamp", FieldVal.fint ts) ∈ (collect_datapoint catalog st₀ envs ts).record ∧
    (shouldPublish (collect_datapoint catalog st₀ envs ts).record = true ↔
      ∃ kv ∈ (collect_datapoint catalog st₀ envs ts).record, kv.1 ≠ "timestamp") := by
  have hrec : (collect_datapoint catalog st₀ envs ts).record =
      assemble ts (collect_datapoint catalog st₀ envs ts).vals.speed
        (collect_datapoint catalog st₀ envs ts).vals.throttle
        (collect_datapoint catalog st₀ envs ts).vals.ect
        (collect_datapoint catalog st₀ envs ts).vals.air
        (collect_datapoint catalog st₀ envs ts).vals.stftv
        (collect_datapoint catalog st₀ envs ts).vals.ltftv
        (collect_datapoint catalog st₀ envs ts).vals.advmv := rfl
  rw [hrec]
  exact assemble_timestamp_publish ts _ _ _ _ _ _ _

lemma assemble_throttle_clamp (ts : ℤ) (s e a f l ad : Option ℤ) :
    ("throttle_percent", FieldVal.fint 100) ∈ assemble ts s (some 137) e a f l ad := by
  have h100 : max 0 (min 100 (137 : ℤ)) = 100 := by decide
  simp [assemble, assembleFields, optField, h100]

lemma assemble_stft_clamp (ts : ℤ) (s t e a l ad : Option ℤ) :
    ("short_term_fuel_trim_percent", FieldVal.fint (-100)) ∈
      assemble ts s t e a (some (-250)) l ad := by
  have hm : max (-100) (min 100 (-250 : ℤ)) = -100 := by decide
  simp [assemble, assembleFields, optField, hm]

/-- C5: clamping is applied to the already-rounded integer reading: when
the throttle query normalizes (rounds) to 137 the published record maps
`throttle_percent` to 100, and when the short-term fuel trim normalizes
to -250 the record maps `short_term_fuel_trim_percent` to -100. -/
theorem collect_clamps_after_rounding (catalog : List String) (st₀ : ReaderState)
    (envs : ℕ → QueryEnv) (ts : ℤ)
    (h1 : (collect_datapoint catalog st₀ envs ts).vals.throttle = some 137)
    (h2 : (collect_datapoint catalog st₀ envs ts).vals.stftv = some (-250)) :
    ("throttle_percent", FieldVal.fint 100) ∈ (collect_datapoint catalog st₀ envs ts).record ∧
    ("short_term_fuel_trim_percent", FieldVal.fint (-100)) ∈
      (collect_datapoint catalog st₀ envs ts).record := by
  have hrec : (collect_datapoint catalog st₀ envs ts).record =
      assemble ts (collect_datapoint catalog st₀ envs ts).vals.speed
        (collect_datapoint catalog st₀ envs ts).vals.throttle
        (collect_datapoint catalog st₀ envs ts).vals.ect
        (collect_datapoint catalog st₀ envs ts).vals.air
        (collect_datapoint catalog st₀ envs ts).vals.stftv
        (collect_datapoint catalog st₀ envs ts).vals.ltftv
        (collect_datapoint catalog st₀ envs ts).vals.advmv := rfl
  rw [hrec, h1, h2]
  exact ⟨assemble_throttle_clamp _ _ _ _ _ _ _, assemble_stft_clamp _ _ _ _ _ _ _⟩

/-- Environment used by the C5 witness: the throttle query (second call)
reads a raw magnitude of 137, the short-term fuel trim query (fifth call)
reads -250, every other query returns a null response. -/
def envWitness5 (i : ℕ) : QueryEnv :=
  if i = 1 then ⟨true, QueryOutcome.val ⟨none, none, none, none, some 137, some 137⟩⟩
  else if i = 4 then ⟨true, QueryOutcome.val ⟨none, none, none, none, some (-250), some (-250)⟩⟩
  else ⟨true, QueryOutcome.nullR⟩

/-- Witness for C5 on a concrete cycle whose throttle reading rounds to
137 and whose short-term fuel trim reading rounds to -250. -/
theorem collect_clamps_after_rounding_witness :
    ("throttle_percent", FieldVal.fint 100) ∈
      (collect_datapoint ["INTAKE_TEMP", "STFT_BANK_1", "LTFT_BANK_1", "ELM_VOLTAGE"]
        ⟨some (), 0, 3⟩ envWitness5 7).record ∧
    ("short_term_fuel_trim_percent", FieldVal.fint (-100)) ∈
      (collect_datapoint ["INTAKE_TEMP", "STFT_BANK_1", "LTFT_BANK_1", "ELM_VOLTAGE"]
        ⟨some (), 0, 3⟩ envWitness5 7).record :=
  collect_clamps_after_rounding _ _ _ _ (by decide) (by decide)

/-- The trace contribution of one optional resolved query. -/
def optTrace (c : Option String) : List (QueryMethod × String) :=
  match c with
  | some cmd => [(QueryMethod.plain, cmd)]
  | none => []

lemma collectRaw_trace (catalog : List String) (st₀ : ReaderState) (envs : ℕ → QueryEnv) :
    (collectRaw catalog st₀ envs).2.trace =
      [(QueryMethod.plain, "SPEED"), (QueryMethod.plain, "THROTTLE_POS"),
        (QueryMethod.plain, "COOLANT_TEMP")]
      ++ optTrace (resolve_cmd catalog "INTAKE_TEMP")
      ++ optTrace (resolve_cmd catalog "STFT")
      ++ optTrace (resolve_cmd catalog "LTFT")
      ++ optTrace (resolve_cmd catalog "ADAPTER_VOLT") := by
  rw [collectRaw]
  rcases resolve_cmd catalog "INTAKE_TEMP" with _ | c1 <;>
  rcases resolve_cmd catalog "STFT" with _ | c2 <;>
  rcases resolve_cmd catalog "LTFT" with _ | c3 <;>
  rcases resolve_cmd catalog "ADAPTER_VOLT" with _ | c4 <;>
    simp [doQuery, doQueryOpt, optTrace]

lemma optTrace_fst {e : QueryMethod × String} {c : Option String}
    (h : e ∈ optTrace c) : e.1 = QueryMethod.plain := by
  cases c with
  | none => simp [optTrace] at h
  | some cmd =>
    simp [optTrace] at h
    simp [h]

/-- C1 counterexample: on a concrete acquisition cycle the primary PID
`SPEED` is queried through plain `query_int`, and no `query_int_retry`
call occurs for any of the three primary PIDs — contradicting the claim
that speed, throttle and coolant temperature are queried via
`queryWithRetry`. -/
theorem collect_primary_plain_counterexample :
    (QueryMethod.plain, "SPEED") ∈
      (collect_datapoint [] OBDReader_init (fun _ => ⟨true, QueryOutcome.nullR⟩) 0).trace ∧
    (QueryMethod.retry, "SPEED") ∉
      (collect_datapoint [] OBDReader_init (fun _ => ⟨true, QueryOutcome.nullR⟩) 0).trace ∧
    (QueryMethod.retry, "THROTTLE_POS") ∉
      (collect_datapoint [] OBDReader_init (fun _ => ⟨true, QueryOutcome.nullR⟩) 0).trace ∧
    (QueryMethod.retry, "COOLANT_TEMP") ∉
      (collect_datapoint [] OBDReader_init (fun _ => ⟨true, QueryOutcome.nullR⟩) 0).trace := by
  decide

/-- C1 amended: every query `collect_datapoint` issues — the three primary
PIDs speed, throttle and coolant temperature included — is a plain
`query_int` call; `query_int_retry` is never invoked by the acquisition
cycle. -/
theorem collect_all_queries_plain (catalog : List String) (st₀ : ReaderState)
    (envs : ℕ → QueryEnv) (ts : ℤ) :
    (QueryMethod.plain, "SPEED") ∈ (collect_datapoint catalog st₀ envs ts).trace ∧
    (QueryMethod.plain, "THROTTLE_POS") ∈ (collect_datapoint catalog st₀ envs ts).trace ∧
    (QueryMethod.plain, "COOLANT_TEMP") ∈ (collect_datapoint catalog st₀ envs ts).trace ∧
    ∀ e ∈ (collect_datapoint catalog st₀ envs ts).trace, e.1 = QueryMethod.plain := by
  have htr : (collect_datapoint catalog st₀ envs ts).trace =
      (collectRaw catalog st₀ envs).2.trace := rfl
  rw [htr, collectRaw_trace]
  refine ⟨by simp, by simp, by simp, ?_⟩
  intro e he
  simp only [List.mem_append] at he
  rcases he with (((h | h) | h) | h) | h
  · fin_cases h <;> rfl
  · exact optTrace_fst h
  · exact optTrace_fst h
  · exact optTrace_fst h
  · exact optTrace_fst h

lemma points_eq_specPoints (kvs : List (String × PyVal)) (t : ℤ) :
    kvs.filterMap (fun kv =>
      if kv.1 = "timestamp" then none
      else (pyIntCoerce kv.2).map (fun iv => Point.mk "obd" kv.1 iv (t * 1000000000))) =
    specPoints kvs t := by
  rw [specPoints]
  apply List.filterMap_congr
  intro kv _
  split
  · rfl
  · cases pyIntCoerce kv.2 <;> rfl

/-- C2 amended: for every parsed message, a present and integer-coercible
`timestamp` is used as the point timestamp; an absent `timestamp`
defaults to the current time and the coercible fields are still emitted;
a present but non-coercible `timestamp` makes `int()` raise, and the
outer handler then drops the whole message — zero points, no write. -/
theorem onMessage_timestamp_rule (now : ℤ) (kvs : List (String × PyVal)) :
    (onMessage now (Payload.record kvs)).points = specIngestPoints now kvs := by
  rw [onMessage, specIngestPoints]
  cases h : kvs.lookup "timestamp" with
  | none =>
    simp only [h, Option.getD_none, pyIntCoerce]
    exact points_eq_specPoints kvs now
  | some tv =>
    simp only [h, Option.getD_some]
    cases h2 : pyIntCoerce tv with
    | none => rfl
    | some t =>
      simp only []
      exact points_eq_specPoints kvs t

/-- C2 counterexample: the payload `{"timestamp": "x", "speed_kmh": 42}`
has a present, non-numeric timestamp and an integer-coercible sensor
field, yet the consumer emits zero points and performs no write — the
field is not emitted with a defaulted timestamp as the claim states. -/
theorem onMessage_nonnumeric_timestamp_counterexample :
    List.lookup "timestamp" [("timestamp", PyVal.vstr "x"), ("speed_kmh", PyVal.vint 42)] =
      some (PyVal.vstr "x") ∧
    pyIntCoerce (PyVal.vstr "x") = none ∧
    pyIntCoerce (PyVal.vint 42) = some 42 ∧
    (onMessage 555 (Payload.record
      [("timestamp", PyVal.vstr "x"), ("speed_kmh", PyVal.vint 42)])).points = [] ∧
    (onMessage 555 (Payload.record
      [("timestamp", PyVal.vstr "x"), ("speed_kmh", PyVal.vint 42)])).wrote = false := by
  decide

/-- C8: for a parsed message whose `timestamp` is present and coerces to
`t`, the consumer emits exactly one point per non-timestamp field whose
value coerces to an integer — measurement `"obd"`, tag `key` the field
name, field `v` the coerced integer, time `t * 1_000_000_000` — and
silently skips each field that fails coercion; in particular the payload
`{"timestamp": 1000, "speed_kmh": 42, "bogus": "x"}` yields exactly the
single point `speed_kmh = 42` at time 1000 s. -/
theorem onMessage_points_shape (now : ℤ) (kvs : List (String × PyVal)) (tv : PyVal) (t : ℤ)
    (h1 : kvs.lookup "timestamp" = some tv) (h2 : pyIntCoerce tv = some t) :
    (onMessage now (Payload.record kvs)).points = specPoints kvs t ∧
    (onMessage 0 (Payload.record
        [("timestamp", PyVal.vint 1000), ("speed_kmh", PyVal.vint 42),
          ("bogus", PyVal.vstr "x")])).points =
      [⟨"obd", "speed_kmh", 42, 1000 * 1000000000⟩] := by
  constructor
  · rw [onMessage]
    simp only [h1, Option.getD_some, h2]
    exact points_eq_specPoints kvs t
  · decide

/-- Witness for C8 at the claim's concrete payload. -/
theorem onMessage_points_shape_witness :
    (onMessage 0 (Payload.record
        [("timestamp", PyVal.vint 1000), ("speed_kmh", PyVal.vint 42),
          ("bogus", PyVal.vstr "x")])).points =
      specPoints [("timestamp", PyVal.vint 1000), ("speed_kmh", PyVal.vint 42),
        ("bogus", PyVal.vstr "x")] 1000 :=
  (onMessage_points_shape 0 _ (PyVal.vint 1000) 1000 (by decide) (by decide)).1
